import Mathlib

/-!
Shallow embedding of the cropfresh-service-gateway core protocol layer:
status translation (src/utils/grpc-status-mapper.ts), the central error
handler (src/middleware/error-handler.ts), the response-envelope helpers
(src/utils/response-handler.ts), the request-id middleware and token
blacklist middleware, the auth middleware (src/middleware/auth.ts), the
login / request-otp route error paths (src/routes/v1/auth.ts), and the
tracking-status mapper (mapProtoStatus).

JavaScript objects serialized by res.json are modelled by the `Json`
inductive below; object keys whose value is `undefined` are dropped at
serialization time, which the embedding reflects by omitting the field.
Library primitives (sha256, JSON.parse, jwt.verify, the system clock and
randomUUID) are passed in as explicit parameters.
-/

namespace Gateway

/-- JSON values as serialized by Express `res.json`. -/
inductive Json where
  | nul
  | bool (b : Bool)
  | num (n : Int)
  | str (s : String)
  | arr (elems : List Json)
  | obj (fields : List (String × Json))

/-- Field lookup on a JSON object (first occurrence wins, as in JS objects
whose keys are unique). -/
def Json.getField : Json → String → Option Json
  | .obj fs, k => (fs.find? (fun p => p.1 == k)).map (·.2)
  | _, _ => none

/-- JavaScript `a || b` on possibly-undefined strings: the empty string is
falsy, `undefined` is falsy. -/
def jsOrStr : Option String → Option String → Option String
  | some s, b => if s = "" then b else some s
  | none, b => b

/-- Render an optional field: a key whose value is `undefined` is dropped
by `res.json`/`JSON.stringify`. -/
def optField (k : String) : Option Json → List (String × Json)
  | some v => [(k, v)]
  | none => []

/-- JavaScript `String.prototype.startsWith`. -/
def jsStartsWith (s pre : String) : Bool :=
  pre.data.isPrefixOf s.data

/-- JavaScript `String.prototype.slice(n)` for a non-negative index. -/
def jsSlice (s : String) (n : Nat) : String :=
  String.mk (s.data.drop n)

/-- Split a character list at every space, keeping empty segments, as
JavaScript `split(' ')` does. -/
def splitCharsOnSpace : List Char → List (List Char)
  | [] => [[]]
  | c :: rest =>
    let r := splitCharsOnSpace rest
    if c = ' ' then [] :: r
    else
      match r with
      | h :: t => (c :: h) :: t
      | [] => [[c]]

/-- JavaScript `String.prototype.split(' ')`. -/
def jsSplitOnSpace (s : String) : List String :=
  (splitCharsOnSpace s.data).map String.mk

/-! ### gRPC status codes (the numeric values of the @grpc/grpc-js
`status` enum used by `mapGrpcStatusToHttp`) -/

def statusOK : Int := 0
def statusCANCELLED : Int := 1
def statusUNKNOWN : Int := 2
def statusINVALID_ARGUMENT : Int := 3
def statusDEADLINE_EXCEEDED : Int := 4
def statusNOT_FOUND : Int := 5
def statusALREADY_EXISTS : Int := 6
def statusPERMISSION_DENIED : Int := 7
def statusRESOURCE_EXHAUSTED : Int := 8
def statusFAILED_PRECONDITION : Int := 9
def statusABORTED : Int := 10
def statusOUT_OF_RANGE : Int := 11
def statusUNIMPLEMENTED : Int := 12
def statusINTERNAL : Int := 13
def statusUNAVAILABLE : Int := 14
def statusDATA_LOSS : Int := 15
def statusUNAUTHENTICATED : Int := 16

/-- `mapGrpcStatusToHttp` from src/utils/grpc-status-mapper.ts
(re-exported through src/utils/response-handler.ts): a switch over the
numeric gRPC code; INTERNAL, DATA_LOSS, UNKNOWN and the default case all
fall through to 500. -/
def mapGrpcStatusToHttp (grpcCode : Int) : Nat :=
  if grpcCode = statusOK then 200
  else if grpcCode = statusINVALID_ARGUMENT then 400
  else if grpcCode = statusFAILED_PRECONDITION then 400
  else if grpcCode = statusOUT_OF_RANGE then 400
  else if grpcCode = statusUNAUTHENTICATED then 401
  else if grpcCode = statusPERMISSION_DENIED then 403
  else if grpcCode = statusNOT_FOUND then 404
  else if grpcCode = statusALREADY_EXISTS then 409
  else if grpcCode = statusABORTED then 409
  else if grpcCode = statusRESOURCE_EXHAUSTED then 429
  else if grpcCode = statusCANCELLED then 499
  else if grpcCode = statusDEADLINE_EXCEEDED then 504
  else if grpcCode = statusUNIMPLEMENTED then 501
  else if grpcCode = statusUNAVAILABLE then 503
  else 500

/-- The gRPC codes that appear as explicit cases of the switch in
`mapGrpcStatusToHttp` (every other numeric code takes the default 500
branch together with INTERNAL, DATA_LOSS and UNKNOWN). -/
def grpcSwitchCodes : List Int :=
  [statusOK, statusCANCELLED, statusUNKNOWN, statusINVALID_ARGUMENT,
   statusDEADLINE_EXCEEDED, statusNOT_FOUND, statusALREADY_EXISTS,
   statusPERMISSION_DENIED, statusRESOURCE_EXHAUSTED,
   statusFAILED_PRECONDITION, statusABORTED, statusOUT_OF_RANGE,
   statusUNIMPLEMENTED, statusINTERNAL, statusUNAVAILABLE,
   statusDATA_LOSS, statusUNAUTHENTICATED]

/-! ### mapProtoStatus (logistics tracking routes) -/

/-- The `statusMap` record literal inside `mapProtoStatus`:
`Record<number, string>` lookup returns `undefined` off the keys 0–7. -/
def trackingStatusMap (n : Int) : Option String :=
  if n = 0 then some "LISTED"
  else if n = 1 then some "LISTED"
  else if n = 2 then some "MATCHED"
  else if n = 3 then some "PICKUP_SCHEDULED"
  else if n = 4 then some "AT_DROP_POINT"
  else if n = 5 then some "IN_TRANSIT"
  else if n = 6 then some "DELIVERED"
  else if n = 7 then some "PAID"
  else none

/-- `mapProtoStatus` from the logistics tracking route file:
`statusMap[protoStatus] || 'LISTED'` (JS `||`, so `undefined` — and the
never-occurring empty string — fall back to `'LISTED'`). -/
def mapProtoStatus (protoStatus : Int) : String :=
  match trackingStatusMap protoStatus with
  | some s => if s = "" then "LISTED" else s
  | none => "LISTED"

/-! ### The error value passed to the central error handler -/

/-- The fields of an error value `err` that the `errorHandler` middleware
inspects. `code` is `some c` exactly when `err.code` is present and a
number; `name`, `message`, `details` and `issues` are `none` when the
corresponding property is `undefined`; `isErrorInstance` models
`err instanceof Error`. -/
structure GwError where
  code : Option Int
  name : Option String
  message : Option String
  details : Option String
  issues : Option Json
  isErrorInstance : Bool

/-- `errorHandler` from src/middleware/error-handler.ts. Inputs beyond the
error value: the `X-Trace-ID` response header and `x-trace-id` request
header (either may be absent), and the clock reading
`new Date().toISOString()`. Returns the HTTP status passed to
`res.status` and the JSON body passed to `res.json`. -/
def errorHandler (err : GwError) (resTraceId reqTraceId : Option String)
    (timestamp : String) : Nat × Json :=
  let traceId := jsOrStr resTraceId reqTraceId
  let r : Nat × String × Option String × Option Json :=
    match err.code with
    | some c => (mapGrpcStatusToHttp c, "SERVICE_ERROR",
                 jsOrStr err.details err.message, none)
    | none =>
      if err.name = some "ZodError" then
        (400, "VALIDATION_ERROR", some "Validation failed", err.issues)
      else if err.isErrorInstance then
        (500, "INTERNAL_ERROR", err.message, none)
      else
        (500, "INTERNAL_ERROR", some "An unexpected error occurred", none)
  (r.1, Json.obj
    [("data", .nul),
     ("meta", .obj ([("timestamp", .str timestamp)]
                    ++ optField "request_id" (traceId.map .str))),
     ("error", .obj ([("code", .str r.2.1)]
                     ++ optField "message" (r.2.2.1.map .str)
                     ++ optField "details" r.2.2.2))])

/-! ### Response-envelope helpers (src/utils/response-handler.ts) -/

/-- The `meta` argument of `sendSuccess` as a JavaScript value: either an
object literal, or a plain number (some handlers pass `201` in that
position). -/
inductive MetaArg where
  | objArg (fields : List (String × Json))
  | numArg (n : Nat)

/-- Object spread `{...m}`: a number (or any non-object primitive)
contributes no enumerable own properties. -/
def MetaArg.spreadFields : MetaArg → List (String × Json)
  | .objArg fs => fs
  | .numArg _ => []

/-- JS object-literal update: assigning to an existing key keeps its
position, a new key is appended. -/
def setField (fs : List (String × Json)) (k : String) (v : Json) :
    List (String × Json) :=
  if fs.any (fun p => p.1 == k) then
    fs.map (fun p => if p.1 == k then (k, v) else p)
  else fs ++ [(k, v)]

/-- `{...base, ...extra}` key merging for JS object literals. -/
def objMerge (base : List (String × Json)) :
    List (String × Json) → List (String × Json)
  | [] => base
  | (k, v) :: rest => objMerge (setField base k v) rest

/-- `sendSuccess` from src/utils/response-handler.ts: always
`res.status(200)`; the envelope meta is `{timestamp, request_id, ...meta}`
with `request_id` read from the `X-Trace-ID` response header. -/
def sendSuccess (data : Json) (meta : MetaArg) (resTraceId : Option String)
    (timestamp : String) : Nat × Json :=
  (200, Json.obj
    [("data", data),
     ("meta", .obj (objMerge
        ([("timestamp", .str timestamp)]
         ++ optField "request_id" (resTraceId.map .str))
        meta.spreadFields)),
     ("error", .nul)])

/-- `sendError` from src/utils/response-handler.ts: status, code and
message are passed explicitly; `details` is included only when present
(`...(details && { details })`). -/
def sendError (statusCode : Nat) (code message : String)
    (details : Option Json) (resTraceId : Option String)
    (timestamp : String) : Nat × Json :=
  (statusCode, Json.obj
    [("data", .nul),
     ("meta", .obj ([("timestamp", .str timestamp)]
                    ++ optField "request_id" (resTraceId.map .str))),
     ("error", .obj ([("code", .str code), ("message", .str message)]
                     ++ optField "details" details))])

/-! ### Request-id middleware and gRPC call metadata -/

/-- `requestIdMiddleware`: `(req.headers['x-trace-id'] as string) ||
randomUUID()`; the result is written back to `req.headers['x-trace-id']`
and to the `X-Trace-ID` response header. Returns that trace id; the fresh
UUID is an explicit input. -/
def requestIdMiddleware (xTraceIdHeader : Option String)
    (freshUuid : String) : String :=
  match xTraceIdHeader with
  | some t => if t = "" then freshUuid else t
  | none => freshUuid

/-- `createMetadata` from src/grpc/client-factory.ts: a metadata object
whose single entry is `trace-id`. -/
def createMetadata (traceId : String) : List (String × String) :=
  [("trace-id", traceId)]

/-- The `router.post('/login')` handler of src/routes/v1/auth.ts composed
with `requestIdMiddleware`: the outbound `authClient.Login` call carries
`createMetadata(traceId)`; the callback sends `sendSuccess(res, response)`
on success and forwards the error to `errorHandler` via `next(err)`.
Returns the outbound metadata together with the HTTP response. -/
def loginRoute (xTraceIdHeader : Option String) (freshUuid : String)
    (backendResult : Except GwError Json) (timestamp : String) :
    List (String × String) × (Nat × Json) :=
  let traceId := requestIdMiddleware xTraceIdHeader freshUuid
  let md := createMetadata traceId
  match backendResult with
  | .ok resp => (md, sendSuccess resp (.objArg []) (some traceId) timestamp)
  | .error e => (md, errorHandler e (some traceId) (some traceId) timestamp)

/-! ### Auth middleware (src/middleware/auth.ts) and protected routes -/

/-- Outcome of `authMiddleware`: either `next(err)` with an error object
(forwarded to the central error handler), or `next()` with `req.user`
set. -/
inductive AuthOutcome where
  | forwardErr (e : GwError)
  | proceed (user : Json)

/-- The plain-object errors `authMiddleware` passes to `next`: a numeric
`code` field (set to 401 in the source) and a `message`; not an `Error`
instance. -/
def authErrObj (message : String) : GwError :=
  { code := some 401, name := none, message := some message,
    details := none, issues := none, isErrorInstance := false }

/-- `authMiddleware` from src/middleware/auth.ts. `verify` models
`jwt.verify(token, config.jwtSecret)`: `none` when it throws, `some`
payload otherwise. The token is `authHeader.split(' ')[1]`. -/
def authMiddleware (verify : String → Option Json)
    (authHeader : Option String) : AuthOutcome :=
  match authHeader with
  | none => .forwardErr (authErrObj "No token provided")
  | some h =>
    let token := (jsSplitOnSpace h).get? 1
    match token with
    | none => .forwardErr (authErrObj "Invalid token format")
    | some t =>
      if t = "" then .forwardErr (authErrObj "Invalid token format")
      else
        match verify t with
        | none => .forwardErr (authErrObj "Invalid token")
        | some u => .proceed u

/-- A protected route: `authMiddleware` runs first; on `next(err)` the
request reaches `errorHandler` and no backend call happens; on success
the backend handler runs. The Bool records whether the backend was
invoked. -/
def protectedRoute (verify : String → Option Json)
    (authHeader : Option String) (resTraceId reqTraceId : Option String)
    (timestamp : String) (backend : Json → Nat × Json) :
    (Nat × Json) × Bool :=
  match authMiddleware verify authHeader with
  | .forwardErr e => (errorHandler e resTraceId reqTraceId timestamp, false)
  | .proceed u => (backend u, true)

/-! ### Token blacklist middleware -/

/-- Result of one `redis.exists` lookup: key present, key absent, or the
lookup threw (store unreachable). -/
inductive LookupResult where
  | found
  | notFound
  | storeError
deriving DecidableEq

/-- What an Express middleware did: sent a response itself, or called
`next()`. -/
inductive MwResult where
  | respond (httpStatus : Nat) (body : Json)
  | next

/-- Run the rest of the chain after a middleware: if the middleware
responded, the continuation never runs (third component: whether a
backend call was made downstream). -/
def runWithNext (m : MwResult) (k : Unit → Nat × Json × Bool) :
    Nat × Json × Bool :=
  match m with
  | .respond s b => (s, b, false)
  | .next => k ()

/-- The namespace under which revoked-token hashes are stored
(`TOKEN_BLACKLIST_` `PREFIX` in the source). -/
def tokenBlacklistNamespace : String := "token:blacklist:"

/-- The 401 body the blacklist middleware sends for a revoked token:
`{success: false, error: {code, message}}` — note: not the standard
envelope (no `data`, no `meta`). -/
def blacklistRejectionBody : Json :=
  .obj [("success", .bool false),
        ("error", .obj
          [("code", .str "TOKEN_INVALIDATED"),
           ("message", .str "Session has been logged out. Please login again.")])]

/-- `tokenBlacklistMiddleware`: skip (call `next()`) when the
Authorization header is missing, does not start with `'Bearer '`, or the
sliced token is empty; otherwise hash the token (`hashToken` =
sha256-hex, abstracted as `hash`), look the namespaced key up in the
store, respond 401 on a hit, `next()` on a miss, and `next()` when the
lookup throws (the surrounding try/catch fails open). -/
def tokenBlacklistMiddleware (hash : String → String)
    (store : String → LookupResult) (authHeader : Option String) :
    MwResult :=
  match authHeader with
  | none => .next
  | some h =>
    if jsStartsWith h "Bearer " then
      let token := jsSlice h 7
      if token = "" then .next
      else
        match store (tokenBlacklistNamespace ++ hash token) with
        | .found => .respond 401 blacklistRejectionBody
        | .notFound => .next
        | .storeError => .next
    else .next

/-! ### Structured backend error details (routes/v1/auth.ts) -/

/-- The structured application error shape the auth routes read out of
`JSON.parse(err.details)`: an `error` code, a `message`, and optional
extra fields such as `lockedUntil`. -/
structure AppErrorDetails where
  error : String
  message : String
  lockedUntil : Option Json

/-- The error branch of `router.post('/login/request-otp')` composed with
the central error handler: `JSON.parse(err.details)` is modelled by
`parseJson` (`none` when parsing throws or `err.details` is absent);
`PHONE_NOT_REGISTERED` → `sendError(res, 404, …)`, `ACCOUNT_LOCKED` →
`sendError(res, 403, …, {locked_until})`, anything else falls through to
`next(err)` and hence `errorHandler`. -/
def requestLoginOtpError (parseJson : String → Option AppErrorDetails)
    (err : GwError) (traceId : Option String) (timestamp : String) :
    Nat × Json :=
  match err.details.bind parseJson with
  | some d =>
    if d.error = "PHONE_NOT_REGISTERED" then
      sendError 404 d.error d.message none traceId timestamp
    else if d.error = "ACCOUNT_LOCKED" then
      sendError 403 d.error d.message
        (some (.obj (optField "locked_until" d.lockedUntil))) traceId timestamp
    else errorHandler err traceId traceId timestamp
  | none => errorHandler err traceId traceId timestamp

/-! ### The standard response envelope (spec §6) -/

/-- Decidable check that a JSON body is a standard gateway error
envelope: `data: null`, a `meta` object with `timestamp` and
`request_id`, and an `error` object with `code` and `message`. -/
def isStandardErrorEnvelope (j : Json) : Bool :=
  (match j.getField "data" with
   | some .nul => true
   | _ => false) &&
  (match j.getField "meta" with
   | some m => (m.getField "timestamp").isSome && (m.getField "request_id").isSome
   | none => false) &&
  (match j.getField "error" with
   | some e => (e.getField "code").isSome && (e.getField "message").isSome
   | none => false)

/-! ## Shared helper lemmas -/

/-- A `'Bearer ' + t` header passes the `startsWith('Bearer ')` check. -/
theorem jsStartsWith_bearer (t : String) :
    jsStartsWith ("Bearer " ++ t) "Bearer " = true := by
  unfold jsStartsWith
  rw [String.data_append]
  exact List.isPrefixOf_iff_prefix.mpr (List.prefix_append _ _)

/-- Slicing the `'Bearer '` marker off a `'Bearer ' + t` header yields
`t`. -/
theorem jsSlice_bearer (t : String) : jsSlice ("Bearer " ++ t) 7 = t := by
  unfold jsSlice
  rw [String.data_append,
    show (7 : Nat) = ("Bearer ".data).length by decide, List.drop_left]

/-! ## Claim theorems -/

/-- C10: `mapProtoStatus` is total over numeric inputs: every input yields
one of the eight tracking-status strings of the `statusMap` literal, `0`
and `1` both map to `'LISTED'`, and every input outside `0`–`7` takes the
`|| 'LISTED'` default. -/
theorem mapProtoStatus_total (n : Int) :
    mapProtoStatus n ∈ ["LISTED", "LISTED", "MATCHED", "PICKUP_SCHEDULED",
      "AT_DROP_POINT", "IN_TRANSIT", "DELIVERED", "PAID"] ∧
    mapProtoStatus 0 = "LISTED" ∧ mapProtoStatus 1 = "LISTED" ∧
    ((n < 0 ∨ 7 < n) → mapProtoStatus n = "LISTED") := by
  refine ⟨?_, by decide, by decide, ?_⟩
  · unfold mapProtoStatus trackingStatusMap
    split_ifs <;> decide
  · intro h
    unfold mapProtoStatus trackingStatusMap
    rcases h with h | h <;> split_ifs <;> first | rfl | omega

/-- C10 witness: an input outside 0–7 concretely takes the default. -/
theorem mapProtoStatus_total_witness : mapProtoStatus 9 = "LISTED" :=
  (mapProtoStatus_total 9).2.2.2 (Or.inr (by decide))

/-- C1: `mapGrpcStatusToHttp` realises exactly the spec's table (listed in
the order of `grpcSwitchCodes`), every gRPC code outside the switch takes
the default 500, and the central error handler translates every
numeric-coded backend failure to that HTTP status with the generic
`SERVICE_ERROR` application code. -/
theorem grpcStatus_table_and_generic_code :
    grpcSwitchCodes.map mapGrpcStatusToHttp
      = [200, 499, 500, 400, 504, 404, 409, 403, 429, 400, 409, 400,
         501, 500, 503, 500, 401] ∧
    (∀ c : Int, c ∉ grpcSwitchCodes → mapGrpcStatusToHttp c = 500) ∧
    (∀ (err : GwError) (c : Int) (rt qt : Option String) (ts : String),
      err.code = some c →
      (errorHandler err rt qt ts).1 = mapGrpcStatusToHttp c ∧
      ((errorHandler err rt qt ts).2.getField "error").bind
        (fun e => e.getField "code") = some (.str "SERVICE_ERROR")) := by
  refine ⟨by decide, ?_, ?_⟩
  · intro c hc
    simp only [grpcSwitchCodes, statusOK, statusCANCELLED, statusUNKNOWN,
      statusINVALID_ARGUMENT, statusDEADLINE_EXCEEDED, statusNOT_FOUND,
      statusALREADY_EXISTS, statusPERMISSION_DENIED,
      statusRESOURCE_EXHAUSTED, statusFAILED_PRECONDITION, statusABORTED,
      statusOUT_OF_RANGE, statusUNIMPLEMENTED, statusINTERNAL,
      statusUNAVAILABLE, statusDATA_LOSS, statusUNAUTHENTICATED,
      List.mem_cons, List.not_mem_nil, or_false, not_or] at hc
    obtain ⟨h0, h1, h2, h3, h4, h5, h6, h7, h8, h9, h10, h11, h12, h13,
      h14, h15, h16⟩ := hc
    simp [mapGrpcStatusToHttp, statusOK, statusCANCELLED, statusUNKNOWN,
      statusINVALID_ARGUMENT, statusDEADLINE_EXCEEDED, statusNOT_FOUND,
      statusALREADY_EXISTS, statusPERMISSION_DENIED,
      statusRESOURCE_EXHAUSTED, statusFAILED_PRECONDITION, statusABORTED,
      statusOUT_OF_RANGE, statusUNIMPLEMENTED, statusINTERNAL,
      statusUNAVAILABLE, statusDATA_LOSS, statusUNAUTHENTICATED,
      h0, h1, h2, h3, h4, h5, h6, h7, h8, h9, h10, h11, h12, h13, h14,
      h15, h16]
  · intro err c rt qt ts h
    obtain ⟨code, nm, msg, det, iss, inst⟩ := err
    simp only at h
    subst h
    exact ⟨rfl, rfl⟩

/-- C1 witness: an unmapped code concretely takes 500, and a concrete
UNAVAILABLE failure is translated to HTTP 503 with `SERVICE_ERROR`. -/
theorem grpcStatus_table_witness :
    mapGrpcStatusToHttp 20 = 500 ∧
    (errorHandler ⟨some 14, none, some "unavailable", none, none, true⟩
        (some "trace-1") none "2024-01-01T00:00:00.000Z").1 = 503 ∧
    ((errorHandler ⟨some 14, none, some "unavailable", none, none, true⟩
        (some "trace-1") none "2024-01-01T00:00:00.000Z").2.getField
        "error").bind (fun e => e.getField "code")
      = some (.str "SERVICE_ERROR") := by
  have h := grpcStatus_table_and_generic_code.2.2
    ⟨some 14, none, some "unavailable", none, none, true⟩ 14
    (some "trace-1") none "2024-01-01T00:00:00.000Z" rfl
  exact ⟨grpcStatus_table_and_generic_code.2.1 20 (by decide),
    h.1.trans (by decide), h.2⟩

/-- C4 counterexample: translating the same backend error at two
different clock readings yields different response bodies — the
`meta.timestamp` field records the wall clock, so the envelope is not
byte-identical across the two translations. -/
theorem errorHandler_not_clock_independent :
    errorHandler
        ⟨some 14, none, some "backend down", some "unavailable", none, true⟩
        (some "req-1") none "2024-01-01T00:00:00.000Z" ≠
    errorHandler
        ⟨some 14, none, some "backend down", some "unavailable", none, true⟩
        (some "req-1") none "2024-01-01T00:00:00.001Z" := by
  intro h
  have h2 := congrArg
    (fun r => (r.2.getField "meta").bind (fun m => m.getField "timestamp")) h
  simp [errorHandler, Json.getField, optField, jsOrStr] at h2

/-- C4 amended: the error translation is a pure function of the error
value, the trace headers and the clock reading: everything in the
response except `meta.timestamp` is independent of the clock (so equal
clock readings give byte-identical envelopes), and `meta.timestamp`
equals the clock reading of that translation. -/
theorem errorHandler_deterministic_given_clock (err : GwError)
    (rt qt : Option String) (ts1 ts2 : String) :
    (errorHandler err rt qt ts1).1 = (errorHandler err rt qt ts2).1 ∧
    (errorHandler err rt qt ts1).2.getField "data"
      = (errorHandler err rt qt ts2).2.getField "data" ∧
    (errorHandler err rt qt ts1).2.getField "error"
      = (errorHandler err rt qt ts2).2.getField "error" ∧
    ((errorHandler err rt qt ts1).2.getField "meta").bind
        (fun m => m.getField "request_id")
      = ((errorHandler err rt qt ts2).2.getField "meta").bind
        (fun m => m.getField "request_id") ∧
    ((errorHandler err rt qt ts1).2.getField "meta").bind
        (fun m => m.getField "timestamp") = some (.str ts1) :=
  ⟨rfl, rfl, rfl, rfl, rfl⟩

/-- C9: `sendSuccess` always sends HTTP 200 — its third parameter is
spread into `meta`, never used as a status code — and a handler passing
`201` there (as `router.post('/profile')` does) still gets a 200 response
whose meta holds exactly the timestamp and request id, with the success
envelope `{data, meta, error: null}`. -/
theorem sendSuccess_always_200 :
    (∀ (d : Json) (m : MetaArg) (rt : Option String) (ts : String),
        (sendSuccess d m rt ts).1 = 200) ∧
    (∀ (d : Json) (t ts : String),
        (sendSuccess d (.numArg 201) (some t) ts).2.getField "meta"
          = some (.obj [("timestamp", .str ts), ("request_id", .str t)]) ∧
        (sendSuccess d (.numArg 201) (some t) ts).2.getField "error"
          = some .nul ∧
        (sendSuccess d (.numArg 201) (some t) ts).2.getField "data"
          = some d) :=
  ⟨fun _ _ _ _ => rfl, fun _ _ _ => ⟨rfl, rfl, rfl⟩⟩

/-- C5: when a request supplies a non-empty `x-trace-id` header, the
login route's outbound RPC metadata carries exactly that value under
`trace-id`, and the response envelope echoes it as `meta.request_id` —
on the success path and on the error path alike. -/
theorem loginRoute_trace_propagation (t freshUuid : String)
    (backendResult : Except GwError Json) (ts : String) (h : t ≠ "") :
    (loginRoute (some t) freshUuid backendResult ts).1 = [("trace-id", t)] ∧
    (((loginRoute (some t) freshUuid backendResult ts).2.2.getField
        "meta").bind (fun m => m.getField "request_id"))
      = some (.str t) := by
  unfold loginRoute requestIdMiddleware createMetadata
  cases backendResult with
  | ok resp =>
    refine ⟨by simp [h], ?_⟩
    simp [h, sendSuccess, objMerge, MetaArg.spreadFields, optField,
      Json.getField]
  | error e =>
    refine ⟨by simp [h], ?_⟩
    simp [h, errorHandler, jsOrStr, optField, Json.getField]

/-- C5 witness: a concrete supplied trace id is propagated. -/
theorem loginRoute_trace_propagation_witness :
    (loginRoute (some "abc-123") "fresh-uuid" (.ok .nul) "ts").1
      = [("trace-id", "abc-123")] ∧
    (((loginRoute (some "abc-123") "fresh-uuid" (.ok .nul) "ts").2.2.getField
        "meta").bind (fun m => m.getField "request_id"))
      = some (.str "abc-123") :=
  loginRoute_trace_propagation "abc-123" "fresh-uuid" (.ok .nul) "ts"
    (by decide)

/-- C2: for any request whose Authorization header is `'Bearer ' + t`
with `t` non-empty, if the key `token:blacklist:` + hash(t) is present
in the revocation store, the blacklist middleware responds HTTP 401 with
the `TOKEN_INVALIDATED` body and the rest of the chain — hence any
backend call — never runs. -/
theorem tokenBlacklist_rejects_revoked (hash : String → String)
    (store : String → LookupResult) (t : String)
    (k : Unit → Nat × Json × Bool) (h1 : t ≠ "")
    (h2 : store (tokenBlacklistNamespace ++ hash t) = .found) :
    tokenBlacklistMiddleware hash store (some ("Bearer " ++ t))
      = .respond 401 blacklistRejectionBody ∧
    runWithNext (tokenBlacklistMiddleware hash store (some ("Bearer " ++ t)))
        k = (401, blacklistRejectionBody, false) := by
  have hmw : tokenBlacklistMiddleware hash store (some ("Bearer " ++ t))
      = .respond 401 blacklistRejectionBody := by
    simp [tokenBlacklistMiddleware, jsStartsWith_bearer, jsSlice_bearer,
      h1, h2]
  exact ⟨hmw, by rw [hmw]; rfl⟩

/-- C2 witness: a concretely blacklisted token is rejected and the
continuation never runs. -/
theorem tokenBlacklist_rejects_revoked_witness :
    runWithNext (tokenBlacklistMiddleware (fun s => s)
        (fun s => if s = "token:blacklist:tok" then .found else .notFound)
        (some ("Bearer " ++ "tok"))) (fun _ => (200, .nul, true))
      = (401, blacklistRejectionBody, false) :=
  (tokenBlacklist_rejects_revoked (fun s => s)
    (fun s => if s = "token:blacklist:tok" then .found else .notFound)
    "tok" (fun _ => (200, .nul, true)) (by decide) (by decide)).2

/-- C3: when every revocation-store lookup fails (store unreachable), the
blacklist middleware fails open — whatever the request's Authorization
header, the chain continues exactly as if the middleware were absent, and
no error response is produced by it. -/
theorem tokenBlacklist_fail_open (hash : String → String)
    (store : String → LookupResult) (authHeader : Option String)
    (k : Unit → Nat × Json × Bool)
    (h : ∀ s, store s = .storeError) :
    runWithNext (tokenBlacklistMiddleware hash store authHeader) k = k () := by
  cases authHeader with
  | none => rfl
  | some hd =>
    simp only [tokenBlacklistMiddleware]
    cases hjs : jsStartsWith hd "Bearer " with
    | false => simp [hjs, runWithNext]
    | true =>
      by_cases ht : jsSlice hd 7 = ""
      · simp [hjs, ht, runWithNext]
      · simp [hjs, ht, h, runWithNext]

/-- C3 witness: with an unreachable store, a concrete bearer request
proceeds to the continuation. -/
theorem tokenBlacklist_fail_open_witness :
    runWithNext (tokenBlacklistMiddleware (fun s => s)
        (fun _ => .storeError) (some "Bearer tok"))
        (fun _ => (200, .nul, true))
      = (200, .nul, true) :=
  tokenBlacklist_fail_open (fun s => s) (fun _ => .storeError)
    (some "Bearer tok") (fun _ => (200, .nul, true)) (fun _ => rfl)

/-- C6: whenever a backend error's details parse as structured JSON with
application code `PHONE_NOT_REGISTERED`, the `/login/request-otp` error
path answers HTTP 404 with `error.code = 'PHONE_NOT_REGISTERED'` and the
structured message — for every gRPC status code on the error, so the
structured code takes precedence over the generic table. -/
theorem requestLoginOtp_phone_not_registered
    (parseJson : String → Option AppErrorDetails) (err : GwError)
    (s m : String) (lu : Option Json) (tid ts : String)
    (h1 : err.details = some s)
    (h2 : parseJson s = some ⟨"PHONE_NOT_REGISTERED", m, lu⟩) :
    requestLoginOtpError parseJson err (some tid) ts
      = (404, Json.obj
          [("data", .nul),
           ("meta", .obj [("timestamp", .str ts),
                          ("request_id", .str tid)]),
           ("error", .obj [("code", .str "PHONE_NOT_REGISTERED"),
                           ("message", .str m)])]) := by
  unfold requestLoginOtpError
  rw [h1]
  simp [h2, sendError, optField]

/-- C6 witness: a concrete NOT_FOUND (code 5) backend failure with
structured `PHONE_NOT_REGISTERED` details yields the 404 response. -/
theorem requestLoginOtp_phone_not_registered_witness :
    requestLoginOtpError
        (fun _ => some ⟨"PHONE_NOT_REGISTERED", "no such phone", none⟩)
        ⟨some 5, none, some "5 NOT_FOUND", some "raw-details", none, true⟩
        (some "trace-9") "2024-01-01T00:00:00.000Z"
      = (404, Json.obj
          [("data", .nul),
           ("meta", .obj [("timestamp", .str "2024-01-01T00:00:00.000Z"),
                          ("request_id", .str "trace-9")]),
           ("error", .obj [("code", .str "PHONE_NOT_REGISTERED"),
                           ("message", .str "no such phone")])]) :=
  requestLoginOtp_phone_not_registered
    (fun _ => some ⟨"PHONE_NOT_REGISTERED", "no such phone", none⟩)
    ⟨some 5, none, some "5 NOT_FOUND", some "raw-details", none, true⟩
    "raw-details" "no such phone" none "trace-9" "2024-01-01T00:00:00.000Z"
    rfl rfl

/-- C7: evaluating the auth pipeline at requests with a missing,
malformed, or invalid credential. The request does short-circuit (no
backend call), but because `authMiddleware` passes `{code: 401}` and the
error handler feeds that numeric code to `mapGrpcStatusToHttp` — where
401 is unmapped — the client receives HTTP 500 with `SERVICE_ERROR`, not
the 401/403 the spec states. -/
theorem authFailure_maps_to_500 :
    (protectedRoute (fun _ => some .nul) none (some "tid") none "ts"
        (fun _ => (200, .nul))).2 = false ∧
    (protectedRoute (fun _ => some .nul) none (some "tid") none "ts"
        (fun _ => (200, .nul))).1.1 = 500 ∧
    ((protectedRoute (fun _ => some .nul) none (some "tid") none "ts"
        (fun _ => (200, .nul))).1.2.getField "error").bind
        (fun e => e.getField "code") = some (.str "SERVICE_ERROR") ∧
    (protectedRoute (fun _ => some .nul) (some "garbage") (some "tid") none
        "ts" (fun _ => (200, .nul))).1.1 = 500 ∧
    (protectedRoute (fun _ => none) (some "Bearer bad") (some "tid") none
        "ts" (fun _ => (200, .nul))).1.1 = 500 ∧
    (protectedRoute (fun _ => none) (some "Bearer bad") (some "tid") none
        "ts" (fun _ => (200, .nul))).2 = false :=
  ⟨rfl, rfl, rfl, rfl, rfl, rfl⟩

/-- C8 counterexample: the token-blacklist rejection — an error response
the gateway produces — is `{success: false, error: {...}}`, which is not
the standard envelope: it has no `data: null` and no `meta`. Shown at a
concrete revoked-token request. -/
theorem blacklist_rejection_not_envelope :
    tokenBlacklistMiddleware (fun s => s)
        (fun s => if s = "token:blacklist:tok" then .found else .notFound)
        (some ("Bearer " ++ "tok"))
      = .respond 401 blacklistRejectionBody ∧
    isStandardErrorEnvelope blacklistRejectionBody = false :=
  ⟨rfl, rfl⟩

/-- C8 amended: error responses produced through the central error
handler (for errors carrying a message, with a trace id set) and through
`sendError` always use the standard envelope `{data: null, meta:
{timestamp, request_id}, error: {code, message, details?}}`; but the
token-blacklist rejection does not — it sends `{success: false, error:
{code, message}}` with neither `data` nor `meta`. -/
theorem error_envelope_standard_except_blacklist :
    (∀ (err : GwError) (m t : String) (qt : Option String) (ts : String),
       err.message = some m → t ≠ "" →
       isStandardErrorEnvelope ((errorHandler err (some t) qt ts).2)
         = true) ∧
    (∀ (s : Nat) (c msg : String) (d : Option Json) (t ts : String),
       isStandardErrorEnvelope ((sendError s c msg d (some t) ts).2)
         = true) ∧
    isStandardErrorEnvelope blacklistRejectionBody = false := by
  refine ⟨?_, ?_, rfl⟩
  · intro err m t qt ts hm ht
    obtain ⟨code, nm, msg, det, iss, inst⟩ := err
    simp only at hm
    subst hm
    cases code with
    | some c =>
      cases det with
      | none =>
        simp [errorHandler, isStandardErrorEnvelope, Json.getField,
          optField, jsOrStr, ht]
      | some d =>
        by_cases hd : d = "" <;>
          simp [errorHandler, isStandardErrorEnvelope, Json.getField,
            optField, jsOrStr, ht, hd]
    | none =>
      by_cases hz : nm = some "ZodError"
      · simp [errorHandler, isStandardErrorEnvelope, Json.getField,
          optField, jsOrStr, ht, hz]
      · cases inst <;>
          simp [errorHandler, isStandardErrorEnvelope, Json.getField,
            optField, jsOrStr, ht, hz]
  · intro s c msg d t ts
    simp [sendError, isStandardErrorEnvelope, Json.getField, optField]

/-- C8 amended witness: a concrete backend failure translated by the
error handler and a concrete `sendError` call both yield standard
envelopes. -/
theorem error_envelope_standard_witness :
    isStandardErrorEnvelope ((errorHandler
        ⟨some 14, none, some "backend down", none, none, true⟩
        (some "trace-2") none "2024-01-01T00:00:00.000Z").2) = true ∧
    isStandardErrorEnvelope ((sendError 400 "VALIDATION_ERROR"
        "User ID is required" none (some "trace-2")
        "2024-01-01T00:00:00.000Z").2) = true :=
  ⟨error_envelope_standard_except_blacklist.1
      ⟨some 14, none, some "backend down", none, none, true⟩
      "backend down" "trace-2" none "2024-01-01T00:00:00.000Z" rfl
      (by decide),
   error_envelope_standard_except_blacklist.2.1 400 "VALIDATION_ERROR"
      "User ID is required" none "trace-2" "2024-01-01T00:00:00.000Z"⟩

end Gateway
